import Mathlib

/-!
Shallow embedding of `fantraxapi/objs.py` (the domain-object construction
layer of the FantraxAPI repository) and proofs about its entities and
operations.  Every fallible JSON read of the Python source (a `KeyError`
on a missing mapping key, an `IndexError` on an out-of-range list index,
a `ValueError` from `int`/`float`/`strptime`, the `FantraxException`
raised by the registry) is modelled in `Except Err`.  JSON scalar cell
contents are modelled as strings; machine reals coming from Python
`float(...)` are modelled as rationals.
-/

/-- Errors raised while an entity is being built.  `keyError k` models a
Python `KeyError` on the missing mapping key `k`, `indexError` an
out-of-range list index (`IndexError`), `valueError` a failed
`int`/`float`/`strptime` conversion, and `resolutionError id` the
`FantraxException` raised by the team registry when `id` has no entry. -/
inductive Err where
  | keyError : String → Err
  | indexError : Err
  | valueError : Err
  | resolutionError : String → Err
deriving DecidableEq

/-- Embeds `Position` (objs.py lines 121-134): `id`, `name` and
`short_name` (read from the `"shortName"` key). -/
structure Position where
  id : String
  name : String
  short_name : String
deriving DecidableEq

/-- Embeds `Team` (objs.py lines 316-330): `team_id`, `name`, `short`
and `logo`. -/
structure Team where
  team_id : String
  name : String
  short : String
  logo : String
deriving DecidableEq

/-- Modelled from the spec: the registry services of the surrounding API
client (spec section 4.1), whose implementation is outside `objs.py`.
`team` models `api.team(team_id)`, which raises a `FantraxException`
when the id is absent (modelled as `none`); `positions` models the
`api.positions` mapping, whose subscript raises a `KeyError` when the
id is absent (modelled as `none`). -/
structure Api where
  team : String → Option Team
  positions : String → Option Position

/-- Python list subscript `l[i]`: `IndexError` when out of range. -/
def reqIdx {α : Type} (l : List α) (i : Nat) : Except Err α :=
  match l.get? i with
  | some a => Except.ok a
  | none => Except.error Err.indexError

/-- Python mapping subscript `d[k]`: `KeyError` when the key is absent. -/
def reqKey {α : Type} (o : Option α) (k : String) : Except Err α :=
  match o with
  | some a => Except.ok a
  | none => Except.error (Err.keyError k)

/-- A failed scalar conversion (`int`, `float`, `strptime`):
`ValueError` when the parse returns nothing. -/
def reqVal {α : Type} (o : Option α) : Except Err α :=
  match o with
  | some a => Except.ok a
  | none => Except.error Err.valueError

/-- Embeds `self._api.team(team_id)` as used throughout objs.py: raises
(`FantraxException`, modelled as `Err.resolutionError`) when the team
id has no registry entry. -/
def resolveTeam (api : Api) (tid : String) : Except Err Team :=
  match api.team tid with
  | some t => Except.ok t
  | none => Except.error (Err.resolutionError tid)

/-- Embeds `self._api.positions[pid]`: dictionary subscript, `KeyError` when
the position id has no registry entry. -/
def resolvePosition (api : Api) (pid : String) : Except Err Position :=
  match api.positions pid with
  | some p => Except.ok p
  | none => Except.error (Err.keyError pid)

/-- Fuelled splitter over character lists, mirroring Python
`str.split(sep)` for a non-empty separator.  The fuel is the input
length, consumed at least one character per step, so the fuel never
runs out; structural recursion on the fuel keeps the definition
kernel-reducible (the core `String.splitOn` uses well-founded recursion
and does not reduce). -/
def splitOnAuxL (sep : List Char) : Nat → List Char → List (List Char)
  | _, [] => [[]]
  | 0, rest => [rest]
  | fuel + 1, a :: rest =>
    if sep.isPrefixOf (a :: rest) then
      [] :: splitOnAuxL sep fuel (List.drop sep.length (a :: rest))
    else
      match splitOnAuxL sep fuel rest with
      | [] => [[a]]
      | g :: gs => (a :: g) :: gs

/-- Python `s.split(sep)` on character lists (`sep` non-empty). -/
def splitOnL (sep : List Char) (s : List Char) : List (List Char) :=
  splitOnAuxL sep s.length s

/-- The numeric value of a decimal digit. -/
def digitVal? (c : Char) : Option Nat :=
  if '0' ≤ c ∧ c ≤ '9' then some (c.toNat - '0'.toNat) else none

/-- Digit-string to natural number, `none` on empty or non-digit input
(mirrors Python `int` on non-negative decimal literals). -/
def toNatL (s : List Char) : Option Nat :=
  match s with
  | [] => none
  | _ =>
    s.foldl
      (fun acc c => acc.bind fun n => (digitVal? c).map fun d => n * 10 + d)
      (some 0)

/-- Approximates the Python builtin `int(s)`: optional sign then decimal
digits. -/
def toIntL (s : List Char) : Option Int :=
  match s with
  | '-' :: rest => (toNatL rest).map fun n => -(n : Int)
  | '+' :: rest => (toNatL rest).map fun n => (n : Int)
  | _ => (toNatL s).map fun n => (n : Int)

/-- Approximates the Python builtin `float(s)` on the decimal strings the
service sends (optional sign, digits, optional fractional part); the
exotic forms `float` also accepts (exponents, `inf`, `nan`, padding
whitespace) are not produced by the service and are not modelled. -/
def parseFloatL (cs : List Char) : Option ℚ :=
  let neg := cs.take 1 = ['-']
  let t := if cs.take 1 = ['-'] ∨ cs.take 1 = ['+'] then cs.drop 1 else cs
  match splitOnL ['.'] t with
  | [ip] =>
    match toNatL ip with
    | some n => some (((if neg then -(n : Int) else (n : Int)) : Int) : ℚ)
    | none => none
  | [ip, fp] =>
    match toNatL ip, toNatL fp with
    | some n, some f =>
      let v : Int := n * 10 ^ fp.length + f
      some (mkRat (if neg then -v else v) (10 ^ fp.length))
    | _, _ => none
  | _ => none

/-- Python `float(s)` on a string payload value. -/
def parseFloat (s : String) : Option ℚ :=
  parseFloatL s.data

/-- Embeds `float(str(content).replace(',', ''))` (objs.py lines 50 and 55):
thousands separators are stripped before the numeric conversion. -/
def parseScore (s : String) : Option ℚ :=
  parseFloatL (s.data.filter (fun c => c ≠ ','))

/-- One cell of a matchup row: the optional `"teamId"` and `"content"`
keys the code subscripts (a missing key is a `KeyError`, only partially
handled). -/
structure MCell where
  teamId : Option String
  content : Option String
deriving DecidableEq

/-- Embeds `Matchup` (objs.py lines 32-77).  `away`/`home` hold either a
resolved `Team` or, after a resolution failure, the raw content string
of the cell (`Sum.inr`). -/
structure Matchup where
  matchup_key : Nat
  away : Team ⊕ String
  away_score : ℚ
  home : Team ⊕ String
  home_score : ℚ
deriving DecidableEq

/-- Embeds `Matchup.__init__` (objs.py lines 43-55).  The `try/except
FantraxException` around each team resolution falls back to the cell's
`"content"` value; every other failure (missing key, missing cell,
unparsable score) propagates. -/
def matchupInit (api : Api) (matchup_key : Nat) (cells : List MCell) :
    Except Err Matchup :=
  match reqIdx cells 0 with
  | Except.error e => Except.error e
  | Except.ok c0 =>
    match reqKey c0.teamId "teamId" with
    | Except.error e => Except.error e
    | Except.ok tid0 =>
      let awayR : Except Err (Team ⊕ String) :=
        match api.team tid0 with
        | some t => Except.ok (Sum.inl t)
        | none =>
          match reqKey c0.content "content" with
          | Except.error e => Except.error e
          | Except.ok s => Except.ok (Sum.inr s)
      match awayR with
      | Except.error e => Except.error e
      | Except.ok away =>
        match reqIdx cells 1 with
        | Except.error e => Except.error e
        | Except.ok c1 =>
          match reqKey c1.content "content" with
          | Except.error e => Except.error e
          | Except.ok s1 =>
            match reqVal (parseScore s1) with
            | Except.error e => Except.error e
            | Except.ok away_score =>
              match reqIdx cells 2 with
              | Except.error e => Except.error e
              | Except.ok c2 =>
                match reqKey c2.teamId "teamId" with
                | Except.error e => Except.error e
                | Except.ok tid2 =>
                  let homeR : Except Err (Team ⊕ String) :=
                    match api.team tid2 with
                    | some t => Except.ok (Sum.inl t)
                    | none =>
                      match reqKey c2.content "content" with
                      | Except.error e => Except.error e
                      | Except.ok s => Except.ok (Sum.inr s)
                  match homeR with
                  | Except.error e => Except.error e
                  | Except.ok home =>
                    match reqIdx cells 3 with
                    | Except.error e => Except.error e
                    | Except.ok c3 =>
                      match reqKey c3.content "content" with
                      | Except.error e => Except.error e
                      | Except.ok s3 =>
                        match reqVal (parseScore s3) with
                        | Except.error e => Except.error e
                        | Except.ok home_score =>
                          Except.ok
                            { matchup_key := matchup_key, away := away,
                              away_score := away_score, home := home,
                              home_score := home_score }

/-- Embeds `Matchup.winner` (objs.py lines 57-63): the all-`None`
4-tuple returned on a tie is modelled as `none`. -/
def Matchup.winner (m : Matchup) :
    Option ((Team ⊕ String) × ℚ × (Team ⊕ String) × ℚ) :=
  if m.away_score > m.home_score then
    some (m.away, m.away_score, m.home, m.home_score)
  else if m.away_score < m.home_score then
    some (m.home, m.home_score, m.away, m.away_score)
  else
    none

/-- Embeds `Matchup.difference` (objs.py lines 65-71). -/
def Matchup.difference (m : Matchup) : ℚ :=
  if m.away_score > m.home_score then m.away_score - m.home_score
  else if m.away_score < m.home_score then m.home_score - m.away_score
  else 0

/-- The same matchup with the home and away sides exchanged, used to
state the swap-symmetry of `Matchup.difference`. -/
def Matchup.swapSides (m : Matchup) : Matchup :=
  { matchup_key := m.matchup_key, away := m.home,
    away_score := m.home_score, home := m.away,
    home_score := m.away_score }

/-- One entry of a player payload's `"icons"` list; the code subscripts
its `"typeId"` key. -/
structure Icon where
  typeId : String
deriving DecidableEq

/-- The keys of a player payload that `Player.__init__` reads.
`teamShortName` and `icons` are the keys the code tests for presence
(`"teamShortName" in data`, `"icons" in data`); all other keys are
subscripted unconditionally. -/
structure PlayerData where
  scorerId : String
  name : String
  shortName : String
  teamName : String
  teamShortName : Option String
  posShortNames : String
  posIdsNoFlex : List String
  posIds : List String
  icons : Option (List Icon)
deriving DecidableEq

/-- Embeds `Player` (objs.py lines 80-118). -/
structure Player where
  type : Option String
  id : String
  name : String
  short_name : String
  team_name : String
  team_short_name : String
  pos_short_name : String
  positions : List Position
  all_positions : List Position
  injured : Bool
  suspended : Bool
deriving DecidableEq

/-- One iteration of the icon loop of `Player.__init__` (objs.py lines
107-111) on the running `(injured, suspended)` pair: the `elif` branch
for `"6"` is only reached when the first test already failed. -/
def iconStep (acc : Bool × Bool) (icon : Icon) : Bool × Bool :=
  if icon.typeId = "1" ∨ icon.typeId = "2" ∨ icon.typeId = "6" then
    (true, acc.2)
  else if icon.typeId = "6" then
    (acc.1, true)
  else
    acc

/-- The `(injured, suspended)` pair computed by `Player.__init__`
(objs.py lines 104-111): both start `False` and the loop only runs when
the `"icons"` key is present. -/
def computeFlags : Option (List Icon) → Bool × Bool
  | none => (false, false)
  | some icons => icons.foldl iconStep (false, false)

/-- The list comprehension `[self._api.positions[d] for d in ids]`
(objs.py lines 102-103): the first missing position id raises. -/
def resolvePositions (api : Api) (ids : List String) :
    Except Err (List Position) :=
  ids.mapM (fun i => resolvePosition api i)

/-- Embeds `Player.__init__` (objs.py lines 93-111).  `ty` is the
`transaction_type` argument (default `None`); `team_short_name` falls
back to `teamName` when the `"teamShortName"` key is absent. -/
def playerInit (api : Api) (ty : Option String) (d : PlayerData) :
    Except Err Player :=
  match resolvePositions api d.posIdsNoFlex with
  | Except.error e => Except.error e
  | Except.ok ps =>
    match resolvePositions api d.posIds with
    | Except.error e => Except.error e
    | Except.ok aps =>
      Except.ok
        { type := ty, id := d.scorerId, name := d.name,
          short_name := d.shortName, team_name := d.teamName,
          team_short_name := d.teamShortName.getD d.teamName,
          pos_short_name := d.posShortNames,
          positions := ps, all_positions := aps,
          injured := (computeFlags d.icons).1,
          suspended := (computeFlags d.icons).2 }

/-- Instants are modelled as integer minutes; one day is 1440 minutes,
matching `timedelta(days=1)`. -/
def minutesPerDay : Int := 1440

/-- Embeds `self.next = self.end + timedelta(days=1)` (objs.py line 164). -/
def spNext (finish : Int) : Int := finish + minutesPerDay

/-- The three temporal flags of a `ScoringPeriod`. -/
structure ScoringPeriodStatus where
  complete : Bool
  current : Bool
  future : Bool
deriving DecidableEq

/-- Embeds the temporal-flag computation of `ScoringPeriod.__init__`
(objs.py lines 164-169) on the already-parsed start/end instants:
`complete = now > next`, `current = start < now < next`,
`future = now < start`, with `now` the value `datetime.now()` returned
at construction time, passed explicitly. -/
def scoringPeriodStatus (start finish now : Int) : ScoringPeriodStatus :=
  { complete := decide (now > spNext finish),
    current := decide (start < now ∧ now < spNext finish),
    future := decide (now < start) }

/-- Parses a `"%I:%M%p"` time-of-day such as `"7:30PM"` into 24-hour
`(hour, minute)`, approximating `datetime.strptime` on this format. -/
def parseTime12 (cs : List Char) : Option (Nat × Nat) :=
  match splitOnL [':'] cs with
  | [hs, ms] =>
    let ap := ms.drop (ms.length - 2)
    let mm := ms.take (ms.length - 2)
    match toNatL hs, toNatL mm with
    | some h, some m =>
      if 1 ≤ h ∧ h ≤ 12 ∧ m ≤ 59 ∧ 1 ≤ mm.length ∧ mm.length ≤ 2 ∧
          (ap = "AM".data ∨ ap = "PM".data) then
        some
          ((if ap = "PM".data then (if h = 12 then 12 else h + 12)
            else (if h = 12 then 0 else h)), m)
      else none
    | _, _ => none
  | _ => none

/-- A parsed `datetime` value (to the minute, which is all the
`"%a %b %d, %Y, %I:%M%p"` format carries). -/
structure DateTimeVal where
  year : Nat
  month : Nat
  day : Nat
  hour : Nat
  minute : Nat
deriving DecidableEq

def weekdayNames : List String :=
  ["Mon", "Tue", "Wed", "Thu", "Fri", "Sat", "Sun"]

def monthNames : List String :=
  ["Jan", "Feb", "Mar", "Apr", "May", "Jun",
   "Jul", "Aug", "Sep", "Oct", "Nov", "Dec"]

/-- Parses a `"%a %b %d, %Y, %I:%M%p"` transaction date such as
`"Mon Jan 01, 2024, 7:30PM"`, approximating `datetime.strptime` on this
format (the day-of-month bound is the uniform 1-31 rather than the
exact calendar length strptime enforces). -/
def parseTxDate (s : String) : Option DateTimeVal :=
  match splitOnL [',', ' '] s.data with
  | [dpart, ys, tpart] =>
    match splitOnL [' '] dpart with
    | [wd, mon, ds] =>
      match monthNames.findIdx? (fun x => x.data = mon), toNatL ds,
          toNatL ys, parseTime12 tpart with
      | some mi, some d, some y, some hm =>
        if wd ∈ weekdayNames.map String.data ∧ 1 ≤ d ∧ d ≤ 31 then
          some { year := y, month := mi + 1, day := d,
                 hour := hm.1, minute := hm.2 }
        else none
      | _, _, _, _ => none
    | _ => none
  | _ => none

/-- One entry of a transaction payload's `"cells"` list: the code
subscripts `cells[0]["teamId"]` and `cells[1]["content"]`. -/
structure TxCell where
  teamId : Option String
  content : Option String
deriving DecidableEq

/-- The keys of a transaction payload (initial row or continuation
fragment) that `Transaction.__init__`/`Transaction.update` read.
`claimType` is subscripted only when `transactionCode == "CLAIM"`. -/
structure TxData where
  txSetId : String
  cells : List TxCell
  numInGroup : Int
  scorer : PlayerData
  transactionCode : String
  claimType : Option String
deriving DecidableEq

/-- Embeds `Transaction` (objs.py lines 438-468). -/
structure Transaction where
  id : String
  team : Team
  date : DateTimeVal
  count : Int
  players : List Player
  finalized : Bool
deriving DecidableEq

/-- The expression
`data["claimType"] if data["transactionCode"] == "CLAIM" else data["transactionCode"]`
(objs.py lines 456 and 461). -/
def txPlayerType (d : TxData) : Except Err String :=
  if d.transactionCode = "CLAIM" then reqKey d.claimType "claimType"
  else Except.ok d.transactionCode

/-- Embeds `Transaction.__init__` (objs.py lines 450-457): one player is
stored and `finalized` starts as `count == 1`. -/
def txInit (api : Api) (d : TxData) : Except Err Transaction :=
  match reqIdx d.cells 0 with
  | Except.error e => Except.error e
  | Except.ok c0 =>
    match reqKey c0.teamId "teamId" with
    | Except.error e => Except.error e
    | Except.ok tid =>
      match resolveTeam api tid with
      | Except.error e => Except.error e
      | Except.ok team =>
        match reqIdx d.cells 1 with
        | Except.error e => Except.error e
        | Except.ok c1 =>
          match reqKey c1.content "content" with
          | Except.error e => Except.error e
          | Except.ok dstr =>
            match reqVal (parseTxDate dstr) with
            | Except.error e => Except.error e
            | Except.ok date =>
              match txPlayerType d with
              | Except.error e => Except.error e
              | Except.ok ty =>
                match playerInit api (some ty) d.scorer with
                | Except.error e => Except.error e
                | Except.ok p =>
                  Except.ok
                    { id := d.txSetId, team := team, date := date,
                      count := d.numInGroup, players := [p],
                      finalized := d.numInGroup == 1 }

/-- Embeds `Transaction.update` (objs.py lines 459-462): a fragment with
a mismatched `txSetId` is silently ignored; a matching fragment appends
one more player and sets `finalized` to `True` unconditionally. -/
def txUpdate (api : Api) (t : Transaction) (d : TxData) :
    Except Err Transaction :=
  if d.txSetId = t.id then
    match txPlayerType d with
    | Except.error e => Except.error e
    | Except.ok ty =>
      match playerInit api (some ty) d.scorer with
      | Except.error e => Except.error e
      | Except.ok p =>
        Except.ok
          { t with players := t.players ++ [p], finalized := true }
  else
    Except.ok t

/-- A sequence of `update` calls applied in retrieval order (spec
section 5). -/
def txUpdateMany (api : Api) (t : Transaction) (ds : List TxData) :
    Except Err Transaction :=
  ds.foldlM (txUpdate api) t

/-- The `data` mapping of a `Record`: header name to cell content, in
Python dict insertion order. -/
def RowDict : Type := List (String × Option String)

instance : DecidableEq RowDict := by
  unfold RowDict
  infer_instance

/-- Python `d[k] = v` on an insertion-ordered dict: an existing key
keeps its position and gets the new value, a new key is appended. -/
def updAssoc (d : RowDict) (k : String) (v : Option String) : RowDict :=
  match d with
  | [] => [(k, v)]
  | (k0, v0) :: rest =>
    if k0 = k then (k0, v) :: rest else (k0, v0) :: updAssoc rest k v

/-- A variable (non-fixed) standings cell; the code reads it with
`cell.get('content', None)`. -/
structure StCell where
  content : Option String
deriving DecidableEq

/-- A fixed standings cell; the code reads `cell.get('content', None)`
and `cell.get("teamId")`. -/
structure FixedCell where
  content : Option String
  teamId : Option String
deriving DecidableEq

/-- One standings row: `row['cells']`, `row.get('fixedCells', [])` and
the names of `row.get('fixedHeader', {}).get('cells', [])`. -/
structure StRow where
  cells : List StCell
  fixedCells : List FixedCell
  fixedHeaderNames : List String
deriving DecidableEq

/-- One standings section: `tableType`/`caption` are read with `.get`,
`headerNames` are the `name` keys of `section['header']['cells']`
(required by the code, so modelled as present), and the data rows. -/
structure StSection where
  tableType : Option String
  caption : Option String
  headerNames : List String
  rows : List StRow
deriving DecidableEq

/-- Embeds `Record` (objs.py lines 196-209). -/
structure Record where
  team : Team
  rank : Int
  data : RowDict
deriving DecidableEq

/-- Embeds `Standings` (objs.py lines 263-304). -/
structure Standings where
  table_type : Option String
  caption : Option String
  team_records : List Record
deriving DecidableEq

/-- The zip-and-assign loops of `Standings.__init__` (objs.py lines
287-288 and 297-298): zip a name list with the contents of a cell list
and assign each pair into the running dict. -/
def zipAssign (d0 : RowDict) (names : List String)
    (contents : List (Option String)) : RowDict :=
  (names.zip contents).foldl (fun d kv => updAssoc d kv.1 kv.2) d0

/-- Embeds `Record.__init__` (objs.py lines 205-209): the team id is
resolved through the registry and the rank content goes through
`int(...)` (`String.toInt?` approximates the Python `int` builtin on
the service's rank strings). -/
def recordInit (api : Api) (team_id rank : String) (d : RowDict) :
    Except Err Record :=
  match api.team team_id with
  | none => Except.error (Err.resolutionError team_id)
  | some t =>
    match toIntL rank.data with
    | none => Except.error Err.valueError
    | some n => Except.ok { team := t, rank := n, data := d }

/-- Embeds one iteration of the row loop of `Standings.__init__`
(objs.py lines 279-304): build the row dict, skip rows with fewer than
two fixed cells, overlay the fixed headers, and append a `Record` only
when both the team id and the rank content are present. -/
def standingsRowStep (api : Api) (headerNames : List String)
    (acc : List Record) (row : StRow) : Except Err (List Record) :=
  let rowDict := zipAssign [] headerNames (row.cells.map StCell.content)
  if row.fixedCells.length < 2 then Except.ok acc
  else
    let rowDict2 :=
      zipAssign rowDict row.fixedHeaderNames
        (row.fixedCells.map FixedCell.content)
    match (row.fixedCells.get? 1).bind FixedCell.teamId,
        (row.fixedCells.get? 0).bind FixedCell.content with
    | some tid, some rk =>
      match recordInit api tid rk rowDict2 with
      | Except.error e => Except.error e
      | Except.ok r => Except.ok (acc ++ [r])
    | some _, none => Except.ok acc
    | none, _ => Except.ok acc

/-- Embeds `Standings.__init__` (objs.py lines 271-304). -/
def standingsInit (api : Api) (s : StSection) : Except Err Standings :=
  match s.rows.foldlM (standingsRowStep api s.headerNames) [] with
  | Except.error e => Except.error e
  | Except.ok recs =>
    Except.ok
      { table_type := s.tableType, caption := s.caption,
        team_records := recs }

/-- One entry of `data["miscData"]["statusTotals"]`: the code subscripts
its `"total"` key (and `"max"` on slot 1); totals are JSON integers. -/
structure StatusTotal where
  total : Option Int
  max : Option Int
deriving DecidableEq

/-- One cell of a roster row; the code subscripts `cells[i]["content"]`,
whose value may be JSON `null` (modelled together with an absent key as
`none`, which the code treats as falsy). -/
structure RCell where
  content : Option String
deriving DecidableEq

/-- One roster row: `statusId` is subscripted unconditionally, `posId`
only when `statusId == "1"`, `scorer` is tested with `"scorer" in row`,
and `cells` is subscripted at indices 1 and 3. -/
structure RosterRowData where
  statusId : String
  posId : Option String
  scorer : Option PlayerData
  cells : List RCell
deriving DecidableEq

/-- One entry of `data["tables"]`; the code iterates `group["rows"]`. -/
structure RosterTable where
  rows : List RosterRowData
deriving DecidableEq

/-- The parts of a roster payload that `Roster.__init__` reads:
`data["miscData"]["statusTotals"]` and `data["tables"]`. -/
structure RosterData where
  statusTotals : List StatusTotal
  tables : List RosterTable
deriving DecidableEq

/-- Embeds `RosterRow` (objs.py lines 492-517). -/
structure RosterRow where
  pos_id : String
  pos : Position
  player : Option Player
  fppg : Option ℚ
  opponent : Option String
  time : Option (Nat × Nat)
deriving DecidableEq

/-- Embeds `RosterRow.__init__` (objs.py lines 493-517): the 3-way
status discriminator, the optional player with its `fppg` cell, and the
opponent/time parse of `cells[1]` when the content ends in `"AM"` or
`"PM"` (the `<br/>` separator of the source is the literal
`<br/>`). -/
def rosterRowInit (api : Api) (d : RosterRowData) : Except Err RosterRow :=
  let posR : Except Err (String × Position) :=
    if d.statusId = "1" then
      match reqKey d.posId "posId" with
      | Except.error e => Except.error e
      | Except.ok pid =>
        match resolvePosition api pid with
        | Except.error e => Except.error e
        | Except.ok p => Except.ok (pid, p)
    else if d.statusId = "3" then
      Except.ok ("-1", { id := "-1", name := "Injured", short_name := "IR" })
    else
      Except.ok ("0", { id := "0", name := "Reserve", short_name := "Res" })
  match posR with
  | Except.error e => Except.error e
  | Except.ok pp =>
    let playerR : Except Err (Option Player × Option ℚ) :=
      match d.scorer with
      | none => Except.ok (none, none)
      | some sc =>
        match playerInit api none sc with
        | Except.error e => Except.error e
        | Except.ok p =>
          match reqIdx d.cells 3 with
          | Except.error e => Except.error e
          | Except.ok c3 =>
            match reqKey c3.content "content" with
            | Except.error e => Except.error e
            | Except.ok s3 =>
              match reqVal (parseFloat s3) with
              | Except.error e => Except.error e
              | Except.ok f => Except.ok (some p, some f)
    match playerR with
    | Except.error e => Except.error e
    | Except.ok pf =>
      match reqIdx d.cells 1 with
      | Except.error e => Except.error e
      | Except.ok c1 =>
        let oppR : Except Err (Option String × Option (Nat × Nat)) :=
          match c1.content with
          | none => Except.ok (none, none)
          | some content =>
            if content.data ≠ [] ∧
                ("AM".data.isSuffixOf content.data ∨
                 "PM".data.isSuffixOf content.data) then
              match splitOnL "<br/>".data content.data with
              | [opp, time_str] =>
                match (splitOnL [' '] time_str).get? 1 with
                | none => Except.error Err.indexError
                | some tp =>
                  match reqVal (parseTime12 tp) with
                  | Except.error e => Except.error e
                  | Except.ok hm => Except.ok (some (String.mk opp), some hm)
              | _ => Except.error Err.valueError
            else Except.ok (none, none)
        match oppR with
        | Except.error e => Except.error e
        | Except.ok ot =>
          Except.ok
            { pos_id := pp.1, pos := pp.2, player := pf.1, fppg := pf.2,
              opponent := ot.1, time := ot.2 }

/-- The row-inclusion filter and loop of `Roster.__init__` (objs.py
lines 480-483): a row is kept when it has a `"scorer"` or its status
code is `"1"`. -/
def rosterRowsStep (api : Api) (acc : List RosterRow)
    (row : RosterRowData) : Except Err (List RosterRow) :=
  if row.scorer.isSome ∨ row.statusId = "1" then
    match rosterRowInit api row with
    | Except.error e => Except.error e
    | Except.ok r => Except.ok (acc ++ [r])
  else Except.ok acc

/-- Embeds `Roster` (objs.py lines 471-483). -/
structure Roster where
  team : Team
  active : Int
  reserve : Int
  max : Int
  injured : Int
  rows : List RosterRow
deriving DecidableEq

/-- Embeds `Roster.__init__` (objs.py lines 472-483): the status totals
are read positionally from slots 0, 1 and 2 of
`data["miscData"]["statusTotals"]` in source order, then the row groups
are filtered and built. -/
def rosterInit (api : Api) (d : RosterData) (team_id : String) :
    Except Err Roster :=
  match resolveTeam api team_id with
  | Except.error e => Except.error e
  | Except.ok team =>
    match reqIdx d.statusTotals 0 with
    | Except.error e => Except.error e
    | Except.ok st0 =>
      match reqKey st0.total "total" with
      | Except.error e => Except.error e
      | Except.ok active =>
        match reqIdx d.statusTotals 1 with
        | Except.error e => Except.error e
        | Except.ok st1 =>
          match reqKey st1.total "total" with
          | Except.error e => Except.error e
          | Except.ok reserve =>
            match reqKey st1.max "max" with
            | Except.error e => Except.error e
            | Except.ok mx =>
              match reqIdx d.statusTotals 2 with
              | Except.error e => Except.error e
              | Except.ok st2 =>
                match reqKey st2.total "total" with
                | Except.error e => Except.error e
                | Except.ok inj =>
                  match d.tables.foldlM
                      (fun acc tbl => tbl.rows.foldlM (rosterRowsStep api) acc)
                      [] with
                  | Except.error e => Except.error e
                  | Except.ok rows =>
                    Except.ok
                      { team := team, active := active, reserve := reserve,
                        max := mx, injured := inj, rows := rows }

/-- Claim C5: for every `Matchup` with stored scores, `winner()` returns
the higher-scoring side as (winning side, winning score, losing side,
losing score) and the all-null tuple (here `none`) exactly on a tie,
and `difference()` is non-negative, zero exactly on a tie, and
symmetric under swapping the home and away sides. -/
theorem matchup_winner_difference_props (m : Matchup) :
    (m.home_score < m.away_score →
      m.winner = some (m.away, m.away_score, m.home, m.home_score)) ∧
    (m.away_score < m.home_score →
      m.winner = some (m.home, m.home_score, m.away, m.away_score)) ∧
    (m.winner = none ↔ m.away_score = m.home_score) ∧
    0 ≤ m.difference ∧
    (m.difference = 0 ↔ m.away_score = m.home_score) ∧
    m.swapSides.difference = m.difference := by
  unfold Matchup.winner Matchup.difference Matchup.swapSides
  rcases lt_trichotomy m.away_score m.home_score with h | h | h
  · refine ⟨fun hh => absurd hh h.not_lt, fun _ => ?_, ?_, ?_, ?_, ?_⟩
    · simp [h, h.not_lt]
    · simp [h, h.not_lt, h.ne]
    · simp [h, h.not_lt, sub_nonneg, h.le]
    · simp only [gt_iff_lt, h.not_lt, if_neg, if_false, h, if_true, if_pos]
      constructor
      · intro h0
        linarith
      · intro h0
        exact absurd h0 h.ne
    · simp [h, h.not_lt]
  · refine ⟨fun hh => absurd hh (h ▸ lt_irrefl _), fun hh => absurd hh (h ▸ lt_irrefl _), ?_, ?_, ?_, ?_⟩
    · simp [h]
    · simp [h]
    · simp [h]
    · simp [h]
  · refine ⟨fun _ => ?_, fun hh => absurd hh h.not_lt, ?_, ?_, ?_, ?_⟩
    · simp [h]
    · simp [h, h.ne']
    · simp [h, sub_nonneg, h.le]
    · simp only [gt_iff_lt, h, if_pos, if_true]
      constructor
      · intro h0
        linarith
      · intro h0
        exact absurd h0 h.ne'
    · simp [h, h.not_lt]

/-- Fixture team for concrete witnesses. -/
def teamH : Team :=
  { team_id := "h1", name := "Homers", short := "HOM", logo := "logo" }

/-- Fixture registry for concrete witnesses: one team, no positions. -/
def apiW : Api :=
  { team := fun tid => if tid = "h1" then some teamH else none,
    positions := fun _ => none }

/-- Concrete instantiation of `matchup_winner_difference_props`: an
away-side 3 to 1 win. -/
theorem matchup_winner_difference_props_witness :
    Matchup.winner
        { matchup_key := 1, away := Sum.inr "A", away_score := 3,
          home := Sum.inr "B", home_score := 1 } =
      some (Sum.inr "A", 3, Sum.inr "B", 1) :=
  (matchup_winner_difference_props
    { matchup_key := 1, away := Sum.inr "A", away_score := 3,
      home := Sum.inr "B", home_score := 1 }).1 (by norm_num)

/-- Claim C7: a matchup row whose away (respectively home) cell carries
a team id with no registry entry does not propagate the resolution
failure: construction still succeeds and the side is set to the raw
content string of that cell. -/
theorem matchup_resolution_fallback (api : Api) (key : Nat)
    (c0 c1 c2 c3 : MCell) (tid0 tid2 s1 s3 : String) (q1 q3 : ℚ)
    (h0 : c0.teamId = some tid0) (h2 : c2.teamId = some tid2)
    (h1 : c1.content = some s1) (hq1 : parseScore s1 = some q1)
    (h3 : c3.content = some s3) (hq3 : parseScore s3 = some q3) :
    (∀ lbl, api.team tid0 = none → c0.content = some lbl →
      ∀ t2, api.team tid2 = some t2 →
        matchupInit api key [c0, c1, c2, c3] =
          Except.ok
            { matchup_key := key, away := Sum.inr lbl, away_score := q1,
              home := Sum.inl t2, home_score := q3 }) ∧
    (∀ lbl, api.team tid2 = none → c2.content = some lbl →
      ∀ t0, api.team tid0 = some t0 →
        matchupInit api key [c0, c1, c2, c3] =
          Except.ok
            { matchup_key := key, away := Sum.inl t0, away_score := q1,
              home := Sum.inr lbl, home_score := q3 }) := by
  constructor
  · intro lbl hnone hcont t2 hres
    simp [matchupInit, reqIdx, reqKey, reqVal, h0, h1, h2, h3, hq1, hq3,
      hnone, hcont, hres]
  · intro lbl hnone hcont t0 hres
    simp [matchupInit, reqIdx, reqKey, reqVal, h0, h1, h2, h3, hq1, hq3,
      hnone, hcont, hres]

/-- Concrete instantiation of `matchup_resolution_fallback`: the away
cell's team id `"zz"` has no registry entry, so `away` becomes the raw
label `"Bye"` and construction succeeds. -/
theorem matchup_resolution_fallback_witness :
    matchupInit apiW 1
        [{ teamId := some "zz", content := some "Bye" },
         { teamId := none, content := some "1,234" },
         { teamId := some "h1", content := none },
         { teamId := none, content := some "3.5" }] =
      Except.ok
        { matchup_key := 1, away := Sum.inr "Bye", away_score := 1234,
          home := Sum.inl teamH, home_score := mkRat 7 2 } :=
  (matchup_resolution_fallback apiW 1
      { teamId := some "zz", content := some "Bye" }
      { teamId := none, content := some "1,234" }
      { teamId := some "h1", content := none }
      { teamId := none, content := some "3.5" }
      "zz" "h1" "1,234" "3.5" 1234 (mkRat 7 2)
      rfl rfl rfl (by decide) rfl (by decide)).1
    "Bye" (by decide) rfl teamH (by decide)

/-- Counterexample to claim C2: at `now = start` (start 0, end 0, so
next = 1440) all three flags are false — `current` uses the strict
bound `start < now`, so the half-open partition claimed over
`[start, next)` fails and no flag at all is set; and when the parsed
end precedes the start (start 2880, end 0, now 2000), `complete` and
`future` are both true, so the flags are not even mutually
exclusive. -/
theorem scoring_period_flags_counterexample :
    ((scoringPeriodStatus 0 0 0).complete = false ∧
     (scoringPeriodStatus 0 0 0).current = false ∧
     (scoringPeriodStatus 0 0 0).future = false) ∧
    ((scoringPeriodStatus 2880 0 2000).complete = true ∧
     (scoringPeriodStatus 2880 0 2000).future = true) := by
  decide

/-- Claim C2 as amended: for periods whose start does not lie after
their end, the three flags are mutually exclusive and follow the strict
comparisons of the code — `future` iff `now < start`, `current` iff
`start < now < next`, `complete` iff `now > next` — and exactly one of
them is true provided `now` is neither exactly `start` nor exactly
`next` (at those two instants all three are false). -/
theorem scoring_period_flags_amended (start finish now : Int)
    (h : start ≤ finish) :
    (¬((scoringPeriodStatus start finish now).complete = true ∧
       (scoringPeriodStatus start finish now).current = true)) ∧
    (¬((scoringPeriodStatus start finish now).complete = true ∧
       (scoringPeriodStatus start finish now).future = true)) ∧
    (¬((scoringPeriodStatus start finish now).current = true ∧
       (scoringPeriodStatus start finish now).future = true)) ∧
    ((scoringPeriodStatus start finish now).future = true ↔ now < start) ∧
    ((scoringPeriodStatus start finish now).current = true ↔
      start < now ∧ now < spNext finish) ∧
    ((scoringPeriodStatus start finish now).complete = true ↔
      spNext finish < now) ∧
    (now ≠ start → now ≠ spNext finish →
      ((scoringPeriodStatus start finish now).future = true ∨
       (scoringPeriodStatus start finish now).current = true ∨
       (scoringPeriodStatus start finish now).complete = true)) := by
  refine ⟨?_, ?_, ?_, ?_, ?_, ?_, ?_⟩ <;>
    simp only [scoringPeriodStatus, spNext, minutesPerDay, gt_iff_lt,
      decide_eq_true_eq, ne_eq] <;>
    omega

/-- Concrete instantiation of `scoring_period_flags_amended`: a one-day
period starting at instant 0 is `current` at instant 500. -/
theorem scoring_period_flags_amended_witness :
    (scoringPeriodStatus 0 1440 500).current = true :=
  ((scoring_period_flags_amended 0 1440 500 (by decide)).2.2.2.2.1).mpr
    (by decide)

/-- Fixture player payload with no positions and no icons. -/
def scorer0 : PlayerData :=
  { scorerId := "p1", name := "Player One", shortName := "P. One",
    teamName := "Homers", teamShortName := none, posShortNames := "C",
    posIdsNoFlex := [], posIds := [], icons := none }

/-- Fixture initial transaction payload: group `"g1"` of expected size
3, made by team `"h1"`. -/
def txD1 : TxData :=
  { txSetId := "g1",
    cells := [{ teamId := some "h1", content := none },
              { teamId := none, content := some "Mon Jan 01, 2024, 7:30PM" }],
    numInGroup := 3, scorer := scorer0, transactionCode := "TRADE",
    claimType := none }

/-- Fixture continuation fragment of the same group `"g1"`. -/
def txU1 : TxData :=
  { txSetId := "g1", cells := [], numInGroup := 3, scorer := scorer0,
    transactionCode := "TRADE", claimType := none }

/-- The player stored by `txInit apiW txD1`. -/
def player1 : Player :=
  { type := some "TRADE", id := "p1", name := "Player One",
    short_name := "P. One", team_name := "Homers",
    team_short_name := "Homers", pos_short_name := "C", positions := [],
    all_positions := [], injured := false, suspended := false }

/-- The transaction built by `txInit apiW txD1`. -/
def tx1 : Transaction :=
  { id := "g1", team := teamH,
    date := { year := 2024, month := 1, day := 1, hour := 19, minute := 30 },
    count := 3, players := [player1], finalized := false }

/-- Claim C1 (code bug, evaluated at the failing input): a transaction
with expected group size 3 already reports `finalized = true` after its
first matching update, while only 2 of the 3 expected players are
present — `Transaction.update` (objs.py line 462) sets the flag
unconditionally instead of comparing `len(players)` with `count`,
contradicting the class docstring "this is true when all player have
been added". -/
theorem transaction_finalized_early :
    ((txInit apiW txD1).bind fun t => txUpdate apiW t txU1).map
        (fun t => (t.count, (t.players.length : Int), t.finalized)) =
      Except.ok (3, 2, true) := by
  rfl

/-- One successful `update` never shrinks the player list and never
clears the `finalized` flag. -/
theorem txUpdate_ok_mono (api : Api) (t : Transaction) (d : TxData)
    (t' : Transaction) (h : txUpdate api t d = Except.ok t') :
    t.players.length ≤ t'.players.length ∧
    (t.finalized = true → t'.finalized = true) := by
  unfold txUpdate at h
  by_cases hid : d.txSetId = t.id
  · rw [if_pos hid] at h
    cases hty : txPlayerType d with
    | error e => simp only [hty] at h; exact Except.noConfusion h
    | ok ty =>
      simp only [hty] at h
      cases hp : playerInit api (some ty) d.scorer with
      | error e => simp only [hp] at h; exact Except.noConfusion h
      | ok p =>
        simp only [hp, Except.ok.injEq] at h
        subst h
        simp
  · rw [if_neg hid] at h
    cases h
    simp

/-- Unfolding `txUpdateMany` on a cons: one `update` followed by the
rest. -/
theorem txUpdateMany_cons (api : Api) (t : Transaction) (d : TxData)
    (ds : List TxData) :
    txUpdateMany api t (d :: ds) =
      match txUpdate api t d with
      | Except.ok t1 => txUpdateMany api t1 ds
      | Except.error e => Except.error e := by
  unfold txUpdateMany
  rw [List.foldlM_cons]
  cases txUpdate api t d <;> rfl

/-- Monotonicity propagated through any sequence of updates. -/
theorem txUpdateMany_ok_mono (api : Api) :
    ∀ (ds : List TxData) (t t' : Transaction),
      txUpdateMany api t ds = Except.ok t' →
      t.players.length ≤ t'.players.length ∧
      (t.finalized = true → t'.finalized = true) := by
  intro ds
  induction ds with
  | nil =>
    intro t t' h
    simp only [txUpdateMany, List.foldlM_nil] at h
    cases h
    simp
  | cons d ds ih =>
    intro t t' h
    rw [txUpdateMany_cons] at h
    cases hu : txUpdate api t d with
    | error e => rw [hu] at h; cases h
    | ok t1 =>
      rw [hu] at h
      obtain ⟨hl1, hf1⟩ := txUpdate_ok_mono api t d t1 hu
      obtain ⟨hl2, hf2⟩ := ih t1 t' h
      exact ⟨le_trans hl1 hl2, fun hf => hf2 (hf1 hf)⟩

/-- A run of fragments that all miss the group id leaves the
transaction untouched. -/
theorem txUpdateMany_mismatch (api : Api) :
    ∀ (ds : List TxData) (t : Transaction),
      (∀ d ∈ ds, d.txSetId ≠ t.id) →
      txUpdateMany api t ds = Except.ok t := by
  intro ds
  induction ds with
  | nil => intro t _; rfl
  | cons d ds ih =>
    intro t hmis
    have hd : d.txSetId ≠ t.id := hmis d (by simp)
    have hu : txUpdate api t d = Except.ok t := by
      unfold txUpdate
      rw [if_neg hd]
    rw [txUpdateMany_cons, hu]
    exact ih t fun d' hd' => hmis d' (by simp [hd'])

/-- Claim C6: an `update` whose fragment's `txSetId` differs from the
transaction's id leaves the whole transaction state unchanged no matter
how often it is repeated, and along any sequence of updates the state
evolves monotonically — `players` only grows and `finalized` only goes
from pending to finalized, never back. -/
theorem transaction_update_mismatch_noop_and_monotone (api : Api)
    (t : Transaction) (ds : List TxData) :
    ((∀ d ∈ ds, d.txSetId ≠ t.id) → txUpdateMany api t ds = Except.ok t) ∧
    (∀ t', txUpdateMany api t ds = Except.ok t' →
      t.players.length ≤ t'.players.length ∧
      (t.finalized = true → t'.finalized = true)) :=
  ⟨txUpdateMany_mismatch api ds t,
   fun t' h => txUpdateMany_ok_mono api ds t t' h⟩

/-- Fixture fragment whose group id does not match `tx1`. -/
def txMis : TxData :=
  { txSetId := "zz", cells := [], numInGroup := 1, scorer := scorer0,
    transactionCode := "TRADE", claimType := none }

/-- Concrete instantiation of
`transaction_update_mismatch_noop_and_monotone`: two mismatched
fragments leave `tx1` unchanged. -/
theorem transaction_update_mismatch_noop_and_monotone_witness :
    txUpdateMany apiW tx1 [txMis, txMis] = Except.ok tx1 :=
  (transaction_update_mismatch_noop_and_monotone apiW tx1
    [txMis, txMis]).1 (by decide)

/-- Claim C10: a freshly constructed transaction holds exactly one
player and is finalized at construction exactly when the payload's
expected group size is 1. -/
theorem transaction_init_props (api : Api) (d : TxData) (t : Transaction)
    (h : txInit api d = Except.ok t) :
    t.players.length = 1 ∧ (t.finalized = true ↔ d.numInGroup = 1) := by
  unfold txInit at h
  cases h0 : reqIdx d.cells 0 with
  | error e => simp only [h0] at h; exact Except.noConfusion h
  | ok c0 =>
    simp only [h0] at h
    cases h1 : reqKey c0.teamId "teamId" with
    | error e => simp only [h1] at h; exact Except.noConfusion h
    | ok tid =>
      simp only [h1] at h
      cases h2 : resolveTeam api tid with
      | error e => simp only [h2] at h; exact Except.noConfusion h
      | ok team =>
        simp only [h2] at h
        cases h3 : reqIdx d.cells 1 with
        | error e => simp only [h3] at h; exact Except.noConfusion h
        | ok c1 =>
          simp only [h3] at h
          cases h4 : reqKey c1.content "content" with
          | error e => simp only [h4] at h; exact Except.noConfusion h
          | ok dstr =>
            simp only [h4] at h
            cases h5 : reqVal (parseTxDate dstr) with
            | error e => simp only [h5] at h; exact Except.noConfusion h
            | ok date =>
              simp only [h5] at h
              cases h6 : txPlayerType d with
              | error e => simp only [h6] at h; exact Except.noConfusion h
              | ok ty =>
                simp only [h6] at h
                cases h7 : playerInit api (some ty) d.scorer with
                | error e => simp only [h7] at h; exact Except.noConfusion h
                | ok p =>
                  simp only [h7, Except.ok.injEq] at h
                  subst h
                  simp

/-- Concrete instantiation of `transaction_init_props` at the fixture
payload `txD1`. -/
theorem transaction_init_props_witness :
    tx1.players.length = 1 ∧ (tx1.finalized = true ↔ txD1.numInGroup = 1) :=
  transaction_init_props apiW txD1 tx1 (by rfl)

/-- The suspended component of the icon fold can never become true:
the only branch that would set it requires `typeId = "6"`, which the
preceding test already captured. -/
theorem iconFold_snd_false (l : List Icon) (b : Bool) :
    (l.foldl iconStep (b, false)).2 = false := by
  induction l generalizing b with
  | nil => rfl
  | cons i l ih =>
    simp only [List.foldl_cons]
    unfold iconStep
    by_cases h1 : i.typeId = "1" ∨ i.typeId = "2" ∨ i.typeId = "6"
    · rw [if_pos h1]
      exact ih true
    · rw [if_neg h1]
      by_cases h2 : i.typeId = "6"
      · exact absurd (Or.inr (Or.inr h2)) h1
      · rw [if_neg h2]
        exact ih b

/-- The injured component of the icon fold is true exactly when the
seed was true or some icon carries one of the three codes. -/
theorem iconFold_fst_iff (l : List Icon) (b c : Bool) :
    ((l.foldl iconStep (b, c)).1 = true ↔
      b = true ∨
        ∃ i ∈ l, i.typeId = "1" ∨ i.typeId = "2" ∨ i.typeId = "6") := by
  induction l generalizing b c with
  | nil => simp
  | cons i l ih =>
    simp only [List.foldl_cons, List.mem_cons]
    by_cases h1 : i.typeId = "1" ∨ i.typeId = "2" ∨ i.typeId = "6"
    · have hstep : iconStep (b, c) i = (true, (b, c).2) := by
        unfold iconStep
        rw [if_pos h1]
      rw [hstep, ih]
      constructor
      · intro _
        exact Or.inr ⟨i, Or.inl rfl, h1⟩
      · intro _
        exact Or.inl rfl
    · by_cases h2 : i.typeId = "6"
      · exact absurd (Or.inr (Or.inr h2)) h1
      · have hstep : iconStep (b, c) i = (b, c) := by
          unfold iconStep
          rw [if_neg h1, if_neg h2]
        rw [hstep, ih]
        constructor
        · rintro (hb | ⟨x, hx, hp⟩)
          · exact Or.inl hb
          · exact Or.inr ⟨x, Or.inr hx, hp⟩
        · rintro (hb | ⟨x, hx | hx, hp⟩)
          · exact Or.inl hb
          · subst hx
            exact absurd hp h1
          · exact Or.inr ⟨x, hx, hp⟩

/-- Claim C3 as amended: `injured` is true exactly when the payload's
icon list (empty when the `"icons"` key is absent) carries an entry
with type code `"1"`, `"2"` or `"6"`; `suspended`, however, is always
false — the `elif` branch that would set it is unreachable because its
`"6"` test is subsumed by the preceding `in ["1", "2", "6"]` test. -/
theorem player_injury_flags_amended (api : Api) (ty : Option String)
    (d : PlayerData) (p : Player)
    (h : playerInit api ty d = Except.ok p) :
    (p.injured = true ↔
      ∃ i ∈ d.icons.getD [],
        i.typeId = "1" ∨ i.typeId = "2" ∨ i.typeId = "6") ∧
    p.suspended = false := by
  unfold playerInit at h
  cases hps : resolvePositions api d.posIdsNoFlex with
  | error e => simp only [hps] at h; exact Except.noConfusion h
  | ok ps =>
    simp only [hps] at h
    cases haps : resolvePositions api d.posIds with
    | error e => simp only [haps] at h; exact Except.noConfusion h
    | ok aps =>
      simp only [haps, Except.ok.injEq] at h
      subst h
      cases hi : d.icons with
      | none => simp [computeFlags, hi]
      | some icons =>
        simp only [computeFlags, hi, Option.getD_some]
        constructor
        · rw [iconFold_fst_iff icons false false]
          simp
        · exact iconFold_snd_false icons false

/-- Empty registry fixture. -/
def apiE : Api := { team := fun _ => none, positions := fun _ => none }

/-- Fixture player payload carrying exactly the suspension icon code
`"6"`. -/
def pd6 : PlayerData :=
  { scorerId := "p6", name := "Six", shortName := "S6", teamName := "T",
    teamShortName := none, posShortNames := "", posIdsNoFlex := [],
    posIds := [], icons := some [{ typeId := "6" }] }

/-- The player built by `playerInit apiE none pd6`. -/
def player6 : Player :=
  { type := none, id := "p6", name := "Six", short_name := "S6",
    team_name := "T", team_short_name := "T", pos_short_name := "",
    positions := [], all_positions := [], injured := true,
    suspended := false }

/-- Counterexample to claim C3: a payload whose icon list carries
type code `"6"` yields `injured = true` but `suspended = false` — the
claimed `suspended = true` never happens because the `elif` branch of
`Player.__init__` (objs.py line 110) is dead code. -/
theorem player_icon6_suspended_counterexample :
    (playerInit apiE none pd6).map (fun p => (p.injured, p.suspended)) =
      Except.ok (true, false) := by
  rfl

/-- Concrete instantiation of `player_injury_flags_amended` at the
fixture payload `pd6`. -/
theorem player_injury_flags_amended_witness :
    (player6.injured = true ↔
      ∃ i ∈ pd6.icons.getD [],
        i.typeId = "1" ∨ i.typeId = "2" ∨ i.typeId = "6") ∧
    player6.suspended = false :=
  player_injury_flags_amended apiE none pd6 player6 (by rfl)

/-- Claim C9: when the `"teamShortName"` key is absent, construction
still succeeds (given resolvable position ids) and `team_short_name`
equals `team_name`, the value of the `"teamName"` key. -/
theorem player_team_short_name_defaults (api : Api) (ty : Option String)
    (d : PlayerData) (habs : d.teamShortName = none)
    (ps aps : List Position)
    (hps : resolvePositions api d.posIdsNoFlex = Except.ok ps)
    (haps : resolvePositions api d.posIds = Except.ok aps) :
    ∃ p, playerInit api ty d = Except.ok p ∧
      p.team_short_name = p.team_name ∧ p.team_name = d.teamName := by
  unfold playerInit
  simp only [hps, haps, habs, Option.getD_none]
  exact ⟨_, rfl, rfl, rfl⟩

/-- Concrete instantiation of `player_team_short_name_defaults` at the
fixture payload `scorer0`, whose `teamShortName` is absent. -/
theorem player_team_short_name_defaults_witness :
    ∃ p, playerInit apiE none scorer0 = Except.ok p ∧
      p.team_short_name = p.team_name ∧ p.team_name = scorer0.teamName :=
  player_team_short_name_defaults apiE none scorer0 rfl [] [] rfl rfl

/-- Modelled from the claim's wording (C4): a "valid" row has at least
two fixed cells, a `teamId` on the second fixed cell and a rank
`content` on the first.  Stated separately from the source-derived
predicates so the claim can be compared with what the code does. -/
def claimValidRow (row : StRow) : Bool :=
  decide (2 ≤ row.fixedCells.length) &&
  ((row.fixedCells.get? 1).bind FixedCell.teamId).isSome &&
  ((row.fixedCells.get? 0).bind FixedCell.content).isSome

/-- A row `Standings.__init__` silently skips: fewer than two fixed
cells, or no team id on the second fixed cell, or no rank content on
the first. -/
def droppedRow (row : StRow) : Bool :=
  decide (row.fixedCells.length < 2) ||
  ((row.fixedCells.get? 1).bind FixedCell.teamId).isNone ||
  ((row.fixedCells.get? 0).bind FixedCell.content).isNone

/-- A row that yields a `Record` without error: the presence checks
plus a registry entry for the team id and an integer-parseable rank. -/
def fullyValidRow (api : Api) (row : StRow) : Bool :=
  (decide (2 ≤ row.fixedCells.length) &&
    (match (row.fixedCells.get? 1).bind FixedCell.teamId with
     | some tid => (api.team tid).isSome
     | none => false)) &&
  (match (row.fixedCells.get? 0).bind FixedCell.content with
   | some rk => (toIntL rk.data).isSome
   | none => false)

/-- A fully valid row appends exactly one record. -/
theorem standingsRowStep_valid (api : Api) (hdr : List String)
    (acc : List Record) (row : StRow)
    (hv : fullyValidRow api row = true) :
    ∃ r, standingsRowStep api hdr acc row = Except.ok (acc ++ [r]) := by
  unfold fullyValidRow at hv
  cases hg1 : row.fixedCells.get? 1 with
  | none => simp only [hg1, Option.bind] at hv; simp at hv
  | some fc1 =>
    simp only [hg1, Option.bind] at hv
    cases hti : fc1.teamId with
    | none => simp only [hti] at hv; simp at hv
    | some tid =>
      simp only [hti] at hv
      cases hg0 : row.fixedCells.get? 0 with
      | none => simp only [hg0, Option.bind] at hv; simp at hv
      | some fc0 =>
        simp only [hg0, Option.bind] at hv
        cases hrk : fc0.content with
        | none => simp only [hrk] at hv; simp at hv
        | some rk =>
          simp only [hrk] at hv
          simp only [Bool.and_eq_true, decide_eq_true_eq] at hv
          obtain ⟨⟨hlen, hteam⟩, hint⟩ := hv
          rw [Option.isSome_iff_exists] at hteam hint
          obtain ⟨t, ht⟩ := hteam
          obtain ⟨n, hn⟩ := hint
          have h2 : ¬ row.fixedCells.length < 2 := by omega
          unfold standingsRowStep recordInit
          simp only [hg1, hg0, Option.bind, hti, hrk, ht, hn, h2, if_false]
          exact ⟨_, rfl⟩

/-- A dropped row leaves the accumulator unchanged. -/
theorem standingsRowStep_dropped (api : Api) (hdr : List String)
    (acc : List Record) (row : StRow) (hd : droppedRow row = true) :
    standingsRowStep api hdr acc row = Except.ok acc := by
  unfold droppedRow at hd
  simp only [Bool.or_eq_true, decide_eq_true_eq,
    Option.isNone_iff_eq_none] at hd
  unfold standingsRowStep
  by_cases h2 : row.fixedCells.length < 2
  · simp [h2]
  · rcases hd with (h | h) | h
    · omega
    · cases hg1 : row.fixedCells.get? 1 with
      | none => simp [hg1, Option.bind, h2]
      | some fc1 =>
        simp only [hg1, Option.bind] at h
        simp [hg1, Option.bind, h, h2]
    · cases hg1 : row.fixedCells.get? 1 with
      | none => simp [hg1, Option.bind, h2]
      | some fc1 =>
        cases hti : fc1.teamId with
        | none => simp [hg1, hti, Option.bind, h2]
        | some tid =>
          cases hg0 : row.fixedCells.get? 0 with
          | none => simp [hg1, hti, hg0, Option.bind, h2]
          | some fc0 =>
            have hc : fc0.content = none := by
              simp only [hg0, Option.bind] at h
              exact h
            simp [hg1, hti, hg0, hc, Option.bind, h2]

/-- A dropped row never counts as fully valid. -/
theorem dropped_not_fullyValid (api : Api) (row : StRow)
    (hd : droppedRow row = true) : fullyValidRow api row = false := by
  unfold droppedRow at hd
  unfold fullyValidRow
  simp only [Bool.or_eq_true, decide_eq_true_eq,
    Option.isNone_iff_eq_none] at hd
  rcases hd with (h | h) | h
  · have hle : ¬ 2 ≤ row.fixedCells.length := by omega
    simp [hle]
  · simp only [List.get?_eq_getElem?] at h
    simp [h]
  · simp only [List.get?_eq_getElem?] at h
    simp [h]

/-- The standings row fold on a cons. -/
theorem standingsFold_cons (api : Api) (hdr : List String)
    (acc : List Record) (row : StRow) (rows : List StRow) :
    (row :: rows).foldlM (standingsRowStep api hdr) acc =
      match standingsRowStep api hdr acc row with
      | Except.ok acc1 => rows.foldlM (standingsRowStep api hdr) acc1
      | Except.error e => Except.error e := by
  rw [List.foldlM_cons]
  cases standingsRowStep api hdr acc row <;> rfl

/-- The standings row fold succeeds and counts exactly the fully valid
rows when every row is fully valid or dropped, however interleaved. -/
theorem standings_fold_count (api : Api) (hdr : List String) :
    ∀ (rows : List StRow) (acc : List Record),
      (∀ row ∈ rows, fullyValidRow api row = true ∨ droppedRow row = true) →
      ∃ recs, rows.foldlM (standingsRowStep api hdr) acc = Except.ok recs ∧
        recs.length =
          acc.length + rows.countP (fun r => fullyValidRow api r) := by
  intro rows
  induction rows with
  | nil =>
    intro acc _
    exact ⟨acc, rfl, by simp⟩
  | cons row rows ih =>
    intro acc hall
    rw [standingsFold_cons]
    rcases hall row (by simp) with hv | hd
    · obtain ⟨r, hstep⟩ := standingsRowStep_valid api hdr acc row hv
      rw [hstep]
      obtain ⟨recs, hfold, hlen⟩ :=
        ih (acc ++ [r]) (fun row' hm => hall row' (by simp [hm]))
      refine ⟨recs, hfold, ?_⟩
      rw [hlen, List.countP_cons]
      simp only [hv, if_true]
      simp
      omega
    · rw [standingsRowStep_dropped api hdr acc row hd]
      obtain ⟨recs, hfold, hlen⟩ :=
        ih acc (fun row' hm => hall row' (by simp [hm]))
      refine ⟨recs, hfold, ?_⟩
      rw [hlen, List.countP_cons]
      simp [dropped_not_fullyValid api row hd]

/-- Fixture team and registry for the standings theorems. -/
def teamA : Team :=
  { team_id := "tA", name := "Alpha", short := "A", logo := "l" }

def apiA : Api :=
  { team := fun tid => if tid = "tA" then some teamA else none,
    positions := fun _ => none }

/-- A row that satisfies the claim's "valid" definition (two fixed
cells, team id on the second, rank content on the first) but whose rank
content `"abc"` is not an integer. -/
def rowBadRank : StRow :=
  { cells := [],
    fixedCells := [{ content := some "abc", teamId := none },
                   { content := none, teamId := some "tA" }],
    fixedHeaderNames := [] }

def secBadRank : StSection :=
  { tableType := none, caption := none, headerNames := [],
    rows := [rowBadRank] }

/-- Counterexample to claim C4: a section whose single row is "valid"
in the claim's sense (two fixed cells, a resolvable team id on the
second, a rank content on the first) still aborts the whole
construction with an error, because `Record.__init__` feeds the rank
content `"abc"` to `int(...)` — so N = 1 valid row yields an error, not
exactly 1 record. -/
theorem standings_valid_row_error_counterexample :
    secBadRank.rows.countP (fun r => claimValidRow r) = 1 ∧
    standingsInit apiA secBadRank = Except.error Err.valueError := by
  constructor
  · rfl
  · rfl

/-- Claim C4 as amended: when every row either is fully valid (at least
two fixed cells, a team id on the second fixed cell with a registry
entry, a rank content on the first that parses as an integer) or fails
one of the presence checks (and is then silently dropped), construction
succeeds and produces exactly one record per fully valid row, no matter
how valid and dropped rows are interleaved; rows passing the presence
checks whose team does not resolve or whose rank does not parse abort
construction instead. -/
theorem standings_record_count (api : Api) (s : StSection)
    (h : ∀ row ∈ s.rows,
      fullyValidRow api row = true ∨ droppedRow row = true) :
    ∃ st, standingsInit api s = Except.ok st ∧
      st.team_records.length =
        s.rows.countP (fun r => fullyValidRow api r) := by
  obtain ⟨recs, hfold, hlen⟩ :=
    standings_fold_count api s.headerNames s.rows [] h
  unfold standingsInit
  rw [hfold]
  exact ⟨_, rfl, by simpa using hlen⟩

/-- A fully valid fixture row (rank `"1"`, resolvable team `"tA"`). -/
def rowGood : StRow :=
  { cells := [],
    fixedCells := [{ content := some "1", teamId := none },
                   { content := none, teamId := some "tA" }],
    fixedHeaderNames := [] }

/-- A spacer fixture row with no fixed cells. -/
def rowSpacer : StRow :=
  { cells := [], fixedCells := [], fixedHeaderNames := [] }

def secGood : StSection :=
  { tableType := some "x", caption := some "Standings",
    headerNames := ["W"], rows := [rowSpacer, rowGood] }

/-- Concrete instantiation of `standings_record_count`: one spacer row
and one fully valid row give exactly one record. -/
theorem standings_record_count_witness :
    ∃ st, standingsInit apiA secGood = Except.ok st ∧
      st.team_records.length =
        secGood.rows.countP (fun r => fullyValidRow apiA r) :=
  standings_record_count apiA secGood (by decide)

/-- Fixture roster payload with only two status-total slots. -/
def rd2 : RosterData :=
  { statusTotals := [{ total := some 20, max := some 4 },
                     { total := some 3, max := some 4 }],
    tables := [] }

/-- Fixture roster payload with the expected three status-total
slots. -/
def rd3 : RosterData :=
  { statusTotals := [{ total := some 20, max := some 0 },
                     { total := some 3, max := some 4 },
                     { total := some 2, max := some 1 }],
    tables := [] }

/-- Counterexample to claim C8: with two status-total slots, `Roster`
construction fails with the bare out-of-range indexing fault
(`IndexError` from `statusTotals[2]`), not with a descriptive error
naming the problem as the claim requires. -/
theorem roster_two_slots_descriptive_error_counterexample :
    rosterInit apiW rd2 "h1" = Except.error Err.indexError := by
  rfl

/-- Claim C8 as amended: with fewer than three status-total slots
(whose present slots carry their keys and whose team id resolves),
Roster construction fails with the plain out-of-range indexing error —
not a descriptive one — and with three or more slots `active`,
`reserve`, `max` and `injured` are read positionally from slots 0, 1,
1 and 2. -/
theorem roster_totals_amended (api : Api) (d : RosterData) (tid : String)
    (t : Team) (ht : api.team tid = some t)
    (hkeys : ∀ st ∈ d.statusTotals,
      st.total.isSome = true ∧ st.max.isSome = true) :
    (d.statusTotals.length < 3 →
      rosterInit api d tid = Except.error Err.indexError) ∧
    (3 ≤ d.statusTotals.length →
      ∀ r, rosterInit api d tid = Except.ok r →
        (d.statusTotals.get? 0).bind StatusTotal.total = some r.active ∧
        (d.statusTotals.get? 1).bind StatusTotal.total = some r.reserve ∧
        (d.statusTotals.get? 1).bind StatusTotal.max = some r.max ∧
        (d.statusTotals.get? 2).bind StatusTotal.total = some r.injured) := by
  obtain ⟨sts, tbls⟩ := d
  constructor
  · intro hlen
    rcases sts with _ | ⟨a, _ | ⟨b, _ | ⟨c, rest⟩⟩⟩
    · unfold rosterInit resolveTeam
      rw [ht]
      rfl
    · obtain ⟨ta, hta⟩ := Option.isSome_iff_exists.mp (hkeys a (by simp)).1
      unfold rosterInit resolveTeam reqIdx reqKey
      rw [ht]
      simp [hta]
    · obtain ⟨ta, hta⟩ := Option.isSome_iff_exists.mp (hkeys a (by simp)).1
      obtain ⟨tb, htb⟩ := Option.isSome_iff_exists.mp (hkeys b (by simp)).1
      obtain ⟨mb, hmb⟩ := Option.isSome_iff_exists.mp (hkeys b (by simp)).2
      unfold rosterInit resolveTeam reqIdx reqKey
      rw [ht]
      simp [hta, htb, hmb]
    · simp at hlen
      omega
  · intro hlen r hok
    rcases sts with _ | ⟨a, _ | ⟨b, _ | ⟨c, rest⟩⟩⟩
    · simp at hlen
    · simp at hlen
    · simp at hlen
    · obtain ⟨ta, hta⟩ := Option.isSome_iff_exists.mp (hkeys a (by simp)).1
      obtain ⟨tb, htb⟩ := Option.isSome_iff_exists.mp (hkeys b (by simp)).1
      obtain ⟨mb, hmb⟩ := Option.isSome_iff_exists.mp (hkeys b (by simp)).2
      obtain ⟨tc, htc⟩ := Option.isSome_iff_exists.mp (hkeys c (by simp)).1
      unfold rosterInit resolveTeam reqIdx reqKey at hok
      rw [ht] at hok
      have hg0 : (a :: b :: c :: rest).get? 0 = some a := rfl
      have hg1 : (a :: b :: c :: rest).get? 1 = some b := rfl
      have hg2 : (a :: b :: c :: rest).get? 2 = some c := rfl
      rw [hg0, hg1, hg2] at hok
      simp only [hta, htb, hmb, htc] at hok
      cases hfold : List.foldlM
          (fun acc tbl => tbl.rows.foldlM (rosterRowsStep api) acc)
          ([] : List RosterRow) tbls with
      | error e =>
        rw [hfold] at hok
        exact Except.noConfusion hok
      | ok rows =>
        rw [hfold] at hok
        simp only [Except.ok.injEq] at hok
        subst hok
        simp [hta, htb, hmb, htc]

/-- The roster built from `rd3` (no row tables). -/
def roster3 : Roster :=
  { team := teamH, active := 20, reserve := 3, max := 4, injured := 2,
    rows := [] }

/-- Concrete instantiation of `roster_totals_amended`: the three-slot
fixture payload is read positionally into `roster3`. -/
theorem roster_totals_amended_witness :
    (rd3.statusTotals.get? 0).bind StatusTotal.total = some roster3.active ∧
    (rd3.statusTotals.get? 1).bind StatusTotal.total = some roster3.reserve ∧
    (rd3.statusTotals.get? 1).bind StatusTotal.max = some roster3.max ∧
    (rd3.statusTotals.get? 2).bind StatusTotal.total = some roster3.injured :=
  (roster_totals_amended apiW rd3 "h1" teamH (by rfl) (by decide)).2
    (by decide) roster3 (by rfl)
